import Mathlib

/-!
Shallow embedding of the navigation-and-layout core of the repository:
the sidebar component (`AppSidebar` over the module-level `items`
registry, from the sidebar source file) and the dashboard layout route
(`RouteComponent`, from `src/renderer/src/routes/dashboard/layout.tsx`).
JSX trees are embedded as the inductive type `Node`; the opaque UI
primitives (`Sidebar`, `SidebarMenuItem`, ...) become element nodes
carrying their component name as tag.
-/

/-- The icon components imported from `lucide-react` in the sidebar file.
They are opaque renderables; we keep only their identity. -/
inductive Icon where
  | Calendar
  | Home
  | Inbox
  | Search
  | Settings
deriving DecidableEq

/-- The component name of an icon, used as its rendered tag. -/
def Icon.name : Icon → String
  | .Calendar => "Calendar"
  | .Home => "Home"
  | .Inbox => "Inbox"
  | .Search => "Search"
  | .Settings => "Settings"

/-- One element of the `items` array in the sidebar file:
`{ title, url, icon }`. -/
structure NavigationEntry where
  title : String
  url : String
  icon : Icon
deriving DecidableEq

/-- The module-level `items` constant of the sidebar file (the
Navigation Registry). -/
def items : List NavigationEntry :=
  [ { title := "Home", url := "/", icon := Icon.Home },
    { title := "Dashboard", url := "/dashboard", icon := Icon.Inbox },
    { title := "Settings", url := "/settings", icon := Icon.Settings } ]

/-- Rendered output trees. `text` is a JSX text child; `elem tag attrs
children` is a JSX element, with component/intrinsic name as `tag` and
the string-valued props as `attrs`. -/
inductive Node where
  | text (s : String)
  | elem (tag : String) (attrs : List (String × String)) (children : List Node)

/-- The body of `items.map((item) => ...)` in `AppSidebar`:
`<SidebarMenuItem key={item.title}><SidebarMenuButton asChild>
<Link to={item.url}><item.icon /><span>{item.title}</span></Link>
</SidebarMenuButton></SidebarMenuItem>`. -/
def renderMenuItem (item : NavigationEntry) : Node :=
  .elem "SidebarMenuItem" [("key", item.title)]
    [ .elem "SidebarMenuButton" [("asChild", "true")]
        [ .elem "Link" [("to", item.url)]
            [ .elem item.icon.name [] [],
              .elem "span" [] [.text item.title] ] ] ]

/-- The `AppSidebar` component body, with the registry it reads made an
explicit parameter (the source closes over the module constant `items`;
`AppSidebar` below instantiates it). -/
def appSidebarWith (registry : List NavigationEntry) : Node :=
  .elem "Sidebar" []
    [ .elem "SidebarContent" []
        [ .elem "SidebarGroup" []
            [ .elem "SidebarGroupLabel" [] [.text "Application"],
              .elem "SidebarGroupContent" []
                [ .elem "SidebarMenu" [] (registry.map renderMenuItem) ] ] ] ]

/-- `AppSidebar()` as exported by the sidebar file: it renders the
module-level `items` registry. -/
def AppSidebar : Node := appSidebarWith items

/-- `RouteComponent` of `routes/dashboard/layout.tsx`:
`<div className="min-h-screen ">Dashboard Layout<div><Outlet /></div>
</div>`. The `Outlet` element is the designated slot; the child content
the router supplies for it is the explicit parameter `child` (empty list
when no child route matches). -/
def RouteComponent (child : List Node) : Node :=
  .elem "div" [("className", "min-h-screen ")]
    [ .text "Dashboard Layout",
      .elem "div" [] [ .elem "Outlet" [] child ] ]

mutual
/-- Whether the rendered tree contains the text child `s`. -/
def containsText (s : String) : Node → Bool
  | .text t => t == s
  | .elem _ _ cs => containsTextList s cs

def containsTextList (s : String) : List Node → Bool
  | [] => false
  | c :: cs => containsText s c || containsTextList s cs
end

mutual
/-- The `SidebarMenuItem` elements of a rendered tree, in document
order (not recursing inside a found item). -/
def menuItemsOf : Node → List Node
  | .text _ => []
  | .elem t a cs =>
      if t == "SidebarMenuItem" then [Node.elem t a cs] else menuItemsOfList cs

def menuItemsOfList : List Node → List Node
  | [] => []
  | c :: cs => menuItemsOf c ++ menuItemsOfList cs
end

mutual
/-- The contents handed to each designated slot (`Outlet` element) of a
rendered tree, in document order; a slot's contents belong to the child
route and are not searched for further slots. -/
def slotContents : Node → List (List Node)
  | .text _ => []
  | .elem t _ cs => if t == "Outlet" then [cs] else slotContentsList cs

def slotContentsList : List Node → List (List Node)
  | [] => []
  | c :: cs => slotContents c ++ slotContentsList cs
end

mutual
/-- The text children of a rendered tree, in document order. -/
def textsOf : Node → List String
  | .text s => [s]
  | .elem _ _ cs => textsOfList cs

def textsOfList : List Node → List String
  | [] => []
  | c :: cs => textsOf c ++ textsOfList cs
end

mutual
/-- The target paths of the `Link` elements of a rendered tree, in
document order. -/
def linkTargets : Node → List String
  | .text _ => []
  | .elem t attrs cs =>
      (if t == "Link" then (attrs.lookup "to").toList else []) ++ linkTargetsList cs

def linkTargetsList : List Node → List String
  | [] => []
  | c :: cs => linkTargets c ++ linkTargetsList cs
end

/-- The ways a rendered menu item can be activated. -/
inductive ActivationMethod where
  | pointer
  | enterKey
  | spaceKey

/-- Modelled from the spec: the `Link` component of
`@tanstack/react-router` is an external routing collaborator whose code
is not part of the repository. Per the spec, activating a rendered menu
item — by pointer, or by Enter/Space while focused — issues one
client-side navigation request per contained link, to the link's target
path, regardless of the activation method. The result is the list of
requested paths. -/
def activate (_m : ActivationMethod) (item : Node) : List String :=
  linkTargets item

/-- The rendering identity key of an element (`key` prop), if any. -/
def keyOf : Node → Option String
  | .text _ => none
  | .elem _ attrs _ => attrs.lookup "key"

/-- The identity keys of the menu items rendered from a registry. -/
def keysOf (registry : List NavigationEntry) : List (Option String) :=
  (menuItemsOf (appSidebarWith registry)).map keyOf

/-- A navigation entry as written before validation, where either field
may be missing. -/
structure RawEntry where
  title : Option String
  url : Option String
  icon : Icon

/-- Modelled from the spec: registry-construction-time validation of a
`NavigationEntry` has no runtime code in the repository (TypeScript
enforces presence of `title` and `url` statically, at the registry
literal). Per the spec, a malformed entry — missing its title or its
target path — fails fast at construction time, yielding no entry. -/
def mkEntry (raw : RawEntry) : Option NavigationEntry :=
  match raw.title, raw.url with
  | some t, some u => some { title := t, url := u, icon := raw.icon }
  | _, _ => none

/-- The mutable surroundings of the core, passed explicitly: the
process-wide registry, and the navigation/history state owned by the
external router (as the list of requested paths, oldest first). -/
structure World where
  registry : List NavigationEntry
  navRequests : List String

/-- Rendering the sidebar: reads the registry, produces output, touches
no state. -/
def doRenderSidebar (w : World) : World × Node :=
  (w, appSidebarWith w.registry)

/-- Rendering the layout with the child the router supplied: produces
output, touches no state. -/
def doRenderLayout (child : List Node) (w : World) : World × Node :=
  (w, RouteComponent child)

/-- Activating the `i`-th rendered menu item: hands its navigation
requests to the external router (which owns `navRequests`); a
nonexistent index activates nothing. -/
def doActivate (m : ActivationMethod) (i : Nat) (w : World) : World :=
  match (menuItemsOf (appSidebarWith w.registry)).get? i with
  | some item => { w with navRequests := w.navRequests ++ activate m item }
  | none => w

mutual
/-- The fixed chrome of a rendered tree: the same tree with the children
of every `SidebarMenu` element (the registry-driven part) removed. -/
def chromeOf : Node → Node
  | .text s => .text s
  | .elem t a cs =>
      if t == "SidebarMenu" then .elem t a [] else .elem t a (chromeOfList cs)

def chromeOfList : List Node → List Node
  | [] => []
  | c :: cs => chromeOf c :: chromeOfList cs
end

/-- A registry with two entries sharing a title but with different
target paths (permitted by the data model's literal definition). -/
def dupTitleRegistry : List NavigationEntry :=
  [ { title := "A", url := "/x", icon := Icon.Home },
    { title := "A", url := "/y", icon := Icon.Settings } ]

/-- Helper: extracting the menu items of a rendered registry gives back
exactly the per-entry renders, in registry order. -/
theorem menuItemsOfList_map (l : List NavigationEntry) :
    menuItemsOfList (l.map renderMenuItem) = l.map renderMenuItem := by
  induction l with
  | nil => rfl
  | cons e l ih =>
      simp [menuItemsOfList, menuItemsOf, renderMenuItem, ih]

/-- Helper: the sidebar rendered from any registry lists exactly the
per-entry renders as its menu items. -/
theorem menuItemsOf_appSidebarWith (registry : List NavigationEntry) :
    menuItemsOf (appSidebarWith registry) = registry.map renderMenuItem := by
  simp [appSidebarWith, menuItemsOf, menuItemsOfList, menuItemsOfList_map]

/-- Helper: a rendered menu item never contains a stray link: its only
`Link` element is the one wrapping the icon and label, so activation
requests exactly the entry's url. -/
theorem activate_renderMenuItem (m : ActivationMethod) (e : NavigationEntry) :
    activate m (renderMenuItem e) = [e.url] := by
  cases h : e.icon <;>
    simp [activate, renderMenuItem, linkTargets, linkTargetsList, h, Icon.name,
      List.lookup]

/-- Claim C1: rendering the Sidebar from any registry R produces exactly
|R| menu items, one per entry (the render of that entry), in the same
order as R. -/
theorem sidebar_one_item_per_entry_in_order (registry : List NavigationEntry) :
    (menuItemsOf (appSidebarWith registry)).length = registry.length ∧
    menuItemsOf (appSidebarWith registry) = registry.map renderMenuItem := by
  refine ⟨?_, menuItemsOf_appSidebarWith registry⟩
  simp [menuItemsOf_appSidebarWith]

/-- Claim C2: for every child content the router supplies (the empty one
included), the Layout Composer renders its fixed frame text
"Dashboard Layout", and exactly one designated slot receives the child;
with no matched child the slot is empty and rendering still succeeds. -/
theorem layout_frame_and_single_slot (child : List Node) :
    containsText "Dashboard Layout" (RouteComponent child) = true ∧
    slotContents (RouteComponent child) = [child] := by
  constructor
  · simp [RouteComponent, containsText, containsTextList]
  · simp [RouteComponent, slotContents, slotContentsList]

/-- Claim C3: activating any rendered menu item, by pointer or by
Enter/Space while focused, issues exactly one navigation request, to the
target path of the corresponding registry entry, regardless of
activation method: itemwise, the requests of the rendered items are
exactly the singleton target paths of the entries, in order. -/
theorem activation_requests_entry_path (registry : List NavigationEntry)
    (m : ActivationMethod) :
    (menuItemsOf (appSidebarWith registry)).map (activate m) =
      registry.map (fun e => [e.url]) := by
  rw [menuItemsOf_appSidebarWith, List.map_map]
  exact List.map_congr_left (fun e _ => activate_renderMenuItem m e)

/-- Claim C4: the empty registry renders zero menu items — the menu list
is literally empty, with no placeholder — and rendering succeeds. -/
theorem empty_registry_renders_no_items :
    menuItemsOf (appSidebarWith []) = [] ∧
    appSidebarWith [] =
      Node.elem "Sidebar" []
        [ Node.elem "SidebarContent" []
            [ Node.elem "SidebarGroup" []
                [ Node.elem "SidebarGroupLabel" [] [Node.text "Application"],
                  Node.elem "SidebarGroupContent" []
                    [ Node.elem "SidebarMenu" [] [] ] ] ] ] := by
  refine ⟨?_, rfl⟩
  simp [menuItemsOf_appSidebarWith]

/-- Claim C5: the concrete registry Home&#x2F;, Dashboard&#x2F;dashboard,
Settings&#x2F;settings renders exactly three items, in that order, with
labels "Home", "Dashboard", "Settings"; activating the second item (by
any method) issues one navigation request to "/dashboard". -/
theorem concrete_registry_scenario (m : ActivationMethod) :
    (menuItemsOf AppSidebar).length = 3 ∧
    (menuItemsOf AppSidebar).map textsOf = [["Home"], ["Dashboard"], ["Settings"]] ∧
    ((menuItemsOf AppSidebar).get? 1).map (activate m) = some ["/dashboard"] := by
  cases m <;> exact ⟨by decide, by decide, by decide⟩

/-- Claim C6, counterexample: with two entries titled "A" at the
different paths "/x" and "/y", the rendered items' identity keys are
both `some "A"`: the keys come from the title alone, so two rendered
items share an identity key. -/
theorem duplicate_title_keys_collide :
    keysOf dupTitleRegistry = [some "A", some "A"] ∧
    dupTitleRegistry.map NavigationEntry.url = ["/x", "/y"] ∧
    ¬ (keysOf dupTitleRegistry).Nodup := by
  decide

/-- Claim C6, amended: the rendering identity key of each menu item is
the entry's title (not title and path combined), so the keys are
pairwise distinguishable for every registry whose titles are pairwise
distinct — the stated uniqueness invariant — but not for registries with
duplicate titles. -/
theorem menu_item_keys_are_titles (registry : List NavigationEntry)
    (h : (registry.map NavigationEntry.title).Nodup) :
    keysOf registry = registry.map (fun e => some e.title) ∧
    (keysOf registry).Nodup := by
  have hk : keysOf registry = registry.map (fun e => some e.title) := by
    simp [keysOf, menuItemsOf_appSidebarWith, List.map_map, keyOf,
      renderMenuItem, List.lookup]
  refine ⟨hk, ?_⟩
  rw [hk, show (fun e : NavigationEntry => some e.title) =
    some ∘ NavigationEntry.title from rfl, ← List.map_map]
  exact h.map (Option.some_injective String)

/-- Witness for the amended C6 at the program's registry: its titles are
pairwise distinct, hence so are its rendered identity keys. -/
theorem menu_item_keys_are_titles_witness :
    (items.map NavigationEntry.title).Nodup ∧ (keysOf items).Nodup :=
  ⟨by decide, (menu_item_keys_are_titles items (by decide)).2⟩

/-- Claim C7: a malformed entry — missing its title or its target
path — fails exactly at registry-construction time (construction yields
no entry), and rendering is total over well-formed registries: every
registry of constructed entries renders to exactly its per-entry menu
items. -/
theorem malformed_entry_fails_at_construction (raw : RawEntry) :
    (mkEntry raw = none ↔ raw.title = none ∨ raw.url = none) ∧
    (∀ registry : List NavigationEntry,
      menuItemsOf (appSidebarWith registry) = registry.map renderMenuItem) := by
  refine ⟨?_, menuItemsOf_appSidebarWith⟩
  cases ht : raw.title <;> cases hu : raw.url <;> simp [mkEntry, ht, hu]

/-- Witness for C7: a concrete entry missing its title fails to
construct. -/
theorem malformed_entry_fails_at_construction_witness :
    mkEntry { title := none, url := some "/", icon := Icon.Home } = none :=
  (malformed_entry_fails_at_construction
    { title := none, url := some "/", icon := Icon.Home }).1.mpr (Or.inl rfl)

/-- Claim C8: no operation of the program — rendering the sidebar,
rendering the layout, or activating a menu item — changes the registry:
the registry component of the world is the same after each operation. -/
theorem registry_never_mutated (w : World) (m : ActivationMethod) (i : Nat)
    (child : List Node) :
    (doRenderSidebar w).1.registry = w.registry ∧
    (doRenderLayout child w).1.registry = w.registry ∧
    (doActivate m i w).registry = w.registry := by
  refine ⟨rfl, rfl, ?_⟩
  unfold doActivate
  cases (menuItemsOf (appSidebarWith w.registry)).get? i <;> rfl

/-- Claim C9: the Sidebar Renderer is deterministic and stateless: two
renders from worlds agreeing on the registry — whatever their other
state — produce identical output. -/
theorem sidebar_render_deterministic (w w' : World)
    (h : w.registry = w'.registry) :
    (doRenderSidebar w).2 = (doRenderSidebar w').2 := by
  simp [doRenderSidebar, h]

/-- Witness for C9: two worlds with the same registry but different
navigation histories render the same sidebar. -/
theorem sidebar_render_deterministic_witness :
    (doRenderSidebar { registry := items, navRequests := [] }).2 =
      (doRenderSidebar { registry := items, navRequests := ["/dashboard"] }).2 :=
  sidebar_render_deterministic
    { registry := items, navRequests := [] }
    { registry := items, navRequests := ["/dashboard"] } rfl

/-- Claim C10: for every registry, the empty one included, the rendered
sidebar contains the fixed chrome: the group label text "Application",
and the container structure, which — once the registry-driven menu
children are set aside — is identical to the chrome of the empty
registry's render. -/
theorem sidebar_chrome_fixed (registry : List NavigationEntry) :
    containsText "Application" (appSidebarWith registry) = true ∧
    chromeOf (appSidebarWith registry) = chromeOf (appSidebarWith []) := by
  constructor
  · simp [appSidebarWith, containsText, containsTextList]
  · simp [appSidebarWith, chromeOf, chromeOfList]
